import Mathlib

/-!
Shallow embedding of `net/proxy/proxy_config_service_win.cc` (ProxyConfigServiceWin):
a proxy-configuration change-detection service that watches a fixed set of Windows
registry locations and falls back to periodic polling.

Registry/OS behaviour (whether key creation, watch arming and re-arming succeed,
which HANDLE a watch event gets, and what WinHttpGetIEProxyConfigForCurrentUser
returns) is modelled by explicit oracle parameters, so every function of the
source becomes a pure Lean function of the service state and the oracle.
-/

namespace ProxyWin

/-- Root registry keys used by the source (`HKEY_CURRENT_USER`, `HKEY_LOCAL_MACHINE`). -/
inductive RootKey where
  | HKEY_CURRENT_USER
  | HKEY_LOCAL_MACHINE
deriving DecidableEq, Repr

/-- Embedding of `ProxyConfigServiceWin::KeyEntry`: a RegKey/ObjectWatcher pair.
The live OS objects are represented by the registry location they were created
for plus the HANDLE of the watch event (`key_.watch_event()`). -/
structure KeyEntry where
  rootkey : RootKey
  subkey : String
  watch_event : Nat
deriving DecidableEq, Repr

/-- State of `ProxyConfigServiceWin` relevant to the claims: the `keys_to_watch_`
list (owning `KeyEntry*` in source order) and the observers registered through
the `PollingProxyConfigService` super-class. -/
structure ServiceState where
  keys_to_watch_ : List KeyEntry
  observers : List Nat
deriving DecidableEq, Repr

/-- Oracle for the registry/OS calls made while building the watch list:
`createOk r s` is the outcome of `RegKey::Create(r, s, KEY_NOTIFY)`,
`watchOk r s` the outcome of `KeyEntry::StartWatching` (both
`RegKey::StartWatching` and `ObjectWatcher::StartWatching` together), and
`handleOf r s` the HANDLE of the created watch event. -/
structure RegistryEnv where
  createOk : RootKey → String → Bool
  watchOk : RootKey → String → Bool
  handleOf : RootKey → String → Nat

/-- Embedding of `ProxyConfigServiceWin::AddKeyToWatchList`: create the RegKey,
arm the watch, and only on success of both append the new entry to
`keys_to_watch_`. Returns the C++ `bool` result together with the new state. -/
def AddKeyToWatchList (env : RegistryEnv) (st : ServiceState)
    (rootkey : RootKey) (subkey : String) : Bool × ServiceState :=
  if !(env.createOk rootkey subkey) then
    (false, st)
  else if !(env.watchOk rootkey subkey) then
    (false, st)
  else
    (true, { st with keys_to_watch_ :=
      st.keys_to_watch_ ++ [⟨rootkey, subkey, env.handleOf rootkey subkey⟩] })

/-- Subkey watched under both HKCU and HKLM
(`Software\Microsoft\Windows\CurrentVersion\Internet Settings`). -/
def internetSettingsSubkey : String :=
  "Software\\Microsoft\\Windows\\CurrentVersion\\Internet Settings"

/-- Machine-policy subkey watched under HKLM; the source concatenates the two
adjacent wide-string literals into one subkey path. -/
def policySubkey : String :=
  "SOFTWARE\\Policies\\Microsoft\\Windows\\CurrentVersion\\Internet Settings"

/-- The three fixed registry locations the source attempts to watch, in the
order of the three `AddKeyToWatchList` calls. -/
def watchedLocations : List (RootKey × String) :=
  [(RootKey.HKEY_CURRENT_USER, internetSettingsSubkey),
   (RootKey.HKEY_LOCAL_MACHINE, internetSettingsSubkey),
   (RootKey.HKEY_LOCAL_MACHINE, policySubkey)]

/-- Embedding of `ProxyConfigServiceWin::StartWatchingRegistryForChanges`:
returns immediately if `keys_to_watch_` is non-empty (already initialized),
otherwise attempts the three fixed locations in order, ignoring each call's
boolean result. -/
def StartWatchingRegistryForChanges (env : RegistryEnv) (st : ServiceState) : ServiceState :=
  if !st.keys_to_watch_.isEmpty then
    st
  else
    let st1 := (AddKeyToWatchList env st RootKey.HKEY_CURRENT_USER internetSettingsSubkey).2
    let st2 := (AddKeyToWatchList env st1 RootKey.HKEY_LOCAL_MACHINE internetSettingsSubkey).2
    (AddKeyToWatchList env st2 RootKey.HKEY_LOCAL_MACHINE policySubkey).2

/-- Embedding of `ProxyConfigServiceWin::AddObserver`: lazily initialize the
registry watcher, then let `PollingProxyConfigService::AddObserver` register
the observer (registration itself is outside src; the spec says it records the
observer's callback, modelled by appending the observer token). -/
def AddObserver (env : RegistryEnv) (st : ServiceState) (observer : Nat) : ServiceState :=
  let st' := StartWatchingRegistryForChanges env st
  { st' with observers := st'.observers ++ [observer] }

/-- Embedding of the linear scan in `ProxyConfigServiceWin::OnObjectSignaled`
(`for (it = keys_to_watch_.begin(); ...; ++it) if ((*it)->watch_event() == object) break;`):
returns the position and entry of the first element whose watch event equals
`object`, or `none` when the loop runs to `end()`. -/
def FindSignaledEntry : List KeyEntry → Nat → Option (Nat × KeyEntry)
  | [], _ => none
  | e :: rest, object =>
    if e.watch_event == object then
      some (0, e)
    else
      (FindSignaledEntry rest object).map (fun p => (p.1 + 1, p.2))

/-- Embedding of `ProxyConfigServiceWin::OnObjectSignaled`. `rearmOk e` is the
outcome of the `(*it)->StartWatching(this)` re-arm call for the found entry.
Returns `none` when no entry matches (the C++ then dereferences the `end()`
iterator, which is undefined behaviour past a `DCHECK`); otherwise returns the
new state together with the number of `CheckForChangesNow()` invocations. -/
def OnObjectSignaled (rearmOk : KeyEntry → Bool) (st : ServiceState) (object : Nat) :
    Option (ServiceState × Nat) :=
  match FindSignaledEntry st.keys_to_watch_ object with
  | none => none
  | some (i, e) =>
    some ({ st with keys_to_watch_ :=
      if (rearmOk e) then st.keys_to_watch_ else st.keys_to_watch_.eraseIdx i }, 1)

/-- Modelled from the spec: the normalized configuration value (`ProxyConfig`,
whose definition lives outside src). The spec treats it as an opaque,
value-comparable snapshot holding an auto-detect flag, per-scheme proxy rules,
a bypass list and a PAC URL. Proxy-rule parsing is out of scope, so the rules
are recorded as the string handed to `ProxyRules::ParseFromString`. -/
structure ProxyConfig where
  auto_detect : Bool
  proxy_rules : String
  bypass_rules : List String
  pac_url : String
deriving DecidableEq, Repr

/-- Modelled from the spec: `ProxyConfig::CreateDirect()`, the well-defined
"no proxy configured" default (direct connection). -/
def ProxyConfig.CreateDirect : ProxyConfig :=
  { auto_detect := false, proxy_rules := "", bypass_rules := [], pac_url := "" }

/-- Embedding of `WINHTTP_CURRENT_USER_IE_PROXY_CONFIG`: a BOOL plus three
nullable wide strings. -/
structure IEProxyConfig where
  fAutoDetect : Bool
  lpszAutoConfigUrl : Option String
  lpszProxy : Option String
  lpszProxyBypass : Option String
deriving DecidableEq, Repr

/-- Modelled from the spec: `WideToASCII` (string conversion outside src); our
strings carry no width, so it is the identity. -/
def WideToASCII (s : String) : String := s

/-- Modelled from the spec: `GURL` construction (outside src); the PAC URL is
recorded as the given string. -/
def GURL (s : String) : String := s

/-- Modelled from the spec: `StringTokenizer` over the delimiter set
`"; \t\n\r"` — splits on the delimiter characters and yields the non-empty
tokens in order. -/
def tokenize (s : String) : List String :=
  (s.split (fun c => c = ';' || c = ' ' || c = '\t' || c = '\n' || c = '\r')).filter
    (fun t => !t.isEmpty)

/-- Embedding of `ProxyConfigServiceWin::SetFromIEConfig`: each present field
of the IE config is layered onto the passed-in config; absent fields leave it
untouched. -/
def SetFromIEConfig (config : ProxyConfig) (ie_config : IEProxyConfig) : ProxyConfig :=
  let c1 := if ie_config.fAutoDetect then { config with auto_detect := true } else config
  let c2 :=
    match ie_config.lpszProxy with
    | some p => { c1 with proxy_rules := WideToASCII p }
    | none => c1
  let c3 :=
    match ie_config.lpszProxyBypass with
    | some pb =>
      { c2 with bypass_rules :=
        (tokenize (WideToASCII pb)).foldl (fun rules t => rules ++ [t]) c2.bypass_rules }
    | none => c2
  match ie_config.lpszAutoConfigUrl with
  | some url => { c3 with pac_url := GURL url }
  | none => c3

/-- Embedding of `ProxyConfigServiceWin::GetCurrentProxyConfig`. The outcome of
`WinHttpGetIEProxyConfigForCurrentUser` is the oracle `winHttpResult`: `none`
models the call reporting failure, `some ie` success with that IE config. On
failure the output is `ProxyConfig::CreateDirect()`. -/
def GetCurrentProxyConfig (winHttpResult : Option IEProxyConfig)
    (config : ProxyConfig) : ProxyConfig :=
  match winHttpResult with
  | none => ProxyConfig.CreateDirect
  | some ie_config => SetFromIEConfig config ie_config

/-- Modelled from the spec: `base::TimeDelta` (outside src), reduced to its
length in seconds as produced by `TimeDelta::FromSeconds`. -/
structure TimeDelta where
  seconds : Int
deriving DecidableEq, Repr

/-- Modelled from the spec: `base::TimeDelta::FromSeconds`. -/
def TimeDelta.FromSeconds (secs : Int) : TimeDelta := ⟨secs⟩

/-- The constant `kPollIntervalSec` of the source. -/
def kPollIntervalSec : Int := 10

/-- The arguments `ProxyConfigServiceWin`'s constructor passes to its
`PollingProxyConfigService` base: the poll interval and the fetch function. -/
structure PollingInit where
  poll_interval : TimeDelta
  get_config_func : Option IEProxyConfig → ProxyConfig → ProxyConfig

/-- Embedding of `ProxyConfigServiceWin::ProxyConfigServiceWin()`: initializes
the base with `TimeDelta::FromSeconds(kPollIntervalSec)` and
`GetCurrentProxyConfig`. -/
def mkProxyConfigServiceWin : PollingInit :=
  { poll_interval := TimeDelta.FromSeconds kPollIntervalSec,
    get_config_func := GetCurrentProxyConfig }

/-- Modelled from the spec: the trigger/coalescing state of
`PollingProxyConfigService` (PollingCore), which lives outside src —
`fetchInFlight` guards against overlapping fetch-and-compare cycles,
`recheckRequested` is the coalescing flag, and `cyclesStarted` counts the
fetch-and-compare cycles started so far. -/
structure PollCore where
  fetchInFlight : Bool
  recheckRequested : Bool
  cyclesStarted : Nat
deriving DecidableEq, Repr

/-- Modelled from the spec: `checkForChangesNow()` — if a fetch is already in
flight, mark a recheck requested and return (coalescing); otherwise start a
fetch-and-compare cycle. -/
def checkForChangesNow (s : PollCore) : PollCore :=
  if s.fetchInFlight then
    { s with recheckRequested := true }
  else
    { s with fetchInFlight := true, cyclesStarted := s.cyclesStarted + 1 }

/-- Modelled from the spec: completion of the in-flight fetch-and-compare
cycle — clear `fetchInFlight`; if a recheck was requested meanwhile,
immediately start exactly one more cycle. -/
def completeFetch (s : PollCore) : PollCore :=
  if s.recheckRequested then
    { s with recheckRequested := false, fetchInFlight := true,
             cyclesStarted := s.cyclesStarted + 1 }
  else
    { s with fetchInFlight := false }

/-- N trigger events delivered in sequence to `checkForChangesNow`. -/
def triggerN : Nat → PollCore → PollCore
  | 0, s => s
  | n + 1, s => triggerN n (checkForChangesNow s)

/-- Operations the service processes after construction, for stating the
evolution of `keys_to_watch_` over a whole run: an `AddObserver` call (with the
registry oracle in effect at that moment) or a watch-fire delivery. -/
inductive ServiceOp where
  | addObserver (env : RegistryEnv) (observer : Nat)
  | objectSignaled (rearmOk : KeyEntry → Bool) (object : Nat)

/-- One step of the service. A fire whose handle matches no entry is undefined
behaviour in the C++; the step keeps the state unchanged in that case so that
runs remain total. -/
def stepOp (op : ServiceOp) (st : ServiceState) : ServiceState :=
  match op with
  | ServiceOp.addObserver env observer => AddObserver env st observer
  | ServiceOp.objectSignaled rearmOk object =>
    match OnObjectSignaled rearmOk st object with
    | none => st
    | some (st', _) => st'

/-- A whole run: fold the operations over the state in order. -/
def runOps (ops : List ServiceOp) (st : ServiceState) : ServiceState :=
  ops.foldl (fun s op => stepOp op s) st

/-- Registry oracle where every creation and arming call succeeds; watch-event
handles are distinct across the three watched locations. -/
def envAllOk : RegistryEnv :=
  { createOk := fun _ _ => true,
    watchOk := fun _ _ => true,
    handleOf := fun r s =>
      s.length + (match r with
        | RootKey.HKEY_CURRENT_USER => 1000
        | RootKey.HKEY_LOCAL_MACHINE => 2000) }

/-- Registry oracle where every creation call fails. -/
def envNoCreate : RegistryEnv :=
  { createOk := fun _ _ => false,
    watchOk := fun _ _ => false,
    handleOf := fun _ _ => 0 }

/-- Registry oracle where exactly the second watched location (the HKLM
Internet Settings tree) fails to create, and the other two succeed. -/
def envSecondFails : RegistryEnv :=
  { createOk := fun r s =>
      !(decide (r = RootKey.HKEY_LOCAL_MACHINE) && decide (s = internetSettingsSubkey)),
    watchOk := fun _ _ => true,
    handleOf := fun r s =>
      s.length + (match r with
        | RootKey.HKEY_CURRENT_USER => 1000
        | RootKey.HKEY_LOCAL_MACHINE => 2000) }

/-- Freshly constructed service: no watches yet, no observers. -/
def emptyState : ServiceState := { keys_to_watch_ := [], observers := [] }

/-- Service state holding exactly one armed watch entry with event handle 5. -/
def oneKeyState : ServiceState :=
  { keys_to_watch_ := [⟨RootKey.HKEY_CURRENT_USER, internetSettingsSubkey, 5⟩],
    observers := [] }

/-- Three watch fires, one per watched location, each of whose re-arm attempt
fails, so each fire permanently removes its entry. -/
def drainFires : List ServiceOp :=
  [ServiceOp.objectSignaled (fun _ => false)
      (envAllOk.handleOf RootKey.HKEY_CURRENT_USER internetSettingsSubkey),
   ServiceOp.objectSignaled (fun _ => false)
      (envAllOk.handleOf RootKey.HKEY_LOCAL_MACHINE internetSettingsSubkey),
   ServiceOp.objectSignaled (fun _ => false)
      (envAllOk.handleOf RootKey.HKEY_LOCAL_MACHINE policySubkey)]

/-- A non-trivial configuration used to exercise the fetch functions. -/
def config0 : ProxyConfig :=
  { auto_detect := true, proxy_rules := "proxy.example:8080",
    bypass_rules := ["localhost"], pac_url := "http://pac.example/wpad.dat" }

/-- IE config with nothing set: auto-detect off and all three strings NULL. -/
def ieEmpty : IEProxyConfig :=
  { fAutoDetect := false, lpszAutoConfigUrl := none,
    lpszProxy := none, lpszProxyBypass := none }

/-- PollCore state with a fetch-and-compare cycle in flight and no recheck
pending yet. -/
def pollBusy : PollCore :=
  { fetchInFlight := true, recheckRequested := false, cyclesStarted := 1 }

theorem startWatching_noop (env : RegistryEnv) (st : ServiceState)
    (h : st.keys_to_watch_ ≠ []) : StartWatchingRegistryForChanges env st = st := by
  unfold StartWatchingRegistryForChanges
  simp [List.isEmpty_iff, h]

/-- C5: the first call to `AddObserver` triggers watcher start-up
(`StartWatchingRegistryForChanges`) before registering the observer, and that
start-up is idempotent: in every state where the watchers are already
initialized (`keys_to_watch_` non-empty) it is a no-op, creating no new
entries and changing no existing ones. -/
theorem addObserver_starts_watchers_idempotent (env : RegistryEnv)
    (st : ServiceState) (observer : Nat) :
    (st.keys_to_watch_ ≠ [] → StartWatchingRegistryForChanges env st = st) ∧
    (AddObserver env st observer).keys_to_watch_ =
      (StartWatchingRegistryForChanges env st).keys_to_watch_ ∧
    (AddObserver env st observer).observers =
      (StartWatchingRegistryForChanges env st).observers ++ [observer] :=
  ⟨fun h => startWatching_noop env st h, rfl, rfl⟩

/-- Witness for C5 at a state that already holds one watch entry. -/
theorem addObserver_starts_watchers_idempotent_witness :
    StartWatchingRegistryForChanges envAllOk oneKeyState = oneKeyState ∧
    (AddObserver envAllOk oneKeyState 7).keys_to_watch_ =
      (StartWatchingRegistryForChanges envAllOk oneKeyState).keys_to_watch_ ∧
    (AddObserver envAllOk oneKeyState 7).observers =
      (StartWatchingRegistryForChanges envAllOk oneKeyState).observers ++ [7] :=
  ⟨(addObserver_starts_watchers_idempotent envAllOk oneKeyState 7).1 (by decide),
   (addObserver_starts_watchers_idempotent envAllOk oneKeyState 7).2.1,
   (addObserver_starts_watchers_idempotent envAllOk oneKeyState 7).2.2⟩

/-- C8: `AddKeyToWatchList` is atomic with respect to `keys_to_watch_` — if
either registry-key creation or watch arming fails it returns `false` and the
state is unchanged; if both succeed it returns `true` and exactly one new
entry is appended at the end of `keys_to_watch_`. -/
theorem addKeyToWatchList_atomic (env : RegistryEnv) (st : ServiceState)
    (rootkey : RootKey) (subkey : String) :
    ((env.createOk rootkey subkey = false ∨ env.watchOk rootkey subkey = false) →
       AddKeyToWatchList env st rootkey subkey = (false, st)) ∧
    (env.createOk rootkey subkey = true → env.watchOk rootkey subkey = true →
       AddKeyToWatchList env st rootkey subkey =
         (true, { st with keys_to_watch_ :=
            st.keys_to_watch_ ++ [⟨rootkey, subkey, env.handleOf rootkey subkey⟩] })) := by
  cases hc : env.createOk rootkey subkey <;> cases hw : env.watchOk rootkey subkey <;>
    simp [AddKeyToWatchList, hc, hw]

/-- Witness for C8: a failing creation leaves the empty state unchanged, and a
doubly successful call appends exactly one entry. -/
theorem addKeyToWatchList_atomic_witness :
    AddKeyToWatchList envNoCreate emptyState RootKey.HKEY_CURRENT_USER
      internetSettingsSubkey = (false, emptyState) ∧
    AddKeyToWatchList envAllOk emptyState RootKey.HKEY_CURRENT_USER
      internetSettingsSubkey =
      (true, { emptyState with keys_to_watch_ :=
        emptyState.keys_to_watch_ ++
          [⟨RootKey.HKEY_CURRENT_USER, internetSettingsSubkey,
            envAllOk.handleOf RootKey.HKEY_CURRENT_USER internetSettingsSubkey⟩] }) :=
  ⟨(addKeyToWatchList_atomic envNoCreate emptyState RootKey.HKEY_CURRENT_USER
      internetSettingsSubkey).1 (Or.inl rfl),
   (addKeyToWatchList_atomic envAllOk emptyState RootKey.HKEY_CURRENT_USER
      internetSettingsSubkey).2 rfl rfl⟩

/-- C6: from an uninitialized state, watcher start-up attempts exactly the
three fixed registry locations of `watchedLocations` in order, and the
resulting watch set consists of exactly the entries for the locations whose
creation and arming both succeeded — a failure drops only its own location,
leaving the entries of the other locations unaffected. -/
theorem startWatching_three_locations (env : RegistryEnv) (st : ServiceState)
    (h : st.keys_to_watch_ = []) :
    (StartWatchingRegistryForChanges env st).keys_to_watch_ =
      (watchedLocations.filter
        (fun loc => env.createOk loc.1 loc.2 && env.watchOk loc.1 loc.2)).map
        (fun loc => ⟨loc.1, loc.2, env.handleOf loc.1 loc.2⟩) := by
  cases hc1 : env.createOk RootKey.HKEY_CURRENT_USER internetSettingsSubkey <;>
    cases hw1 : env.watchOk RootKey.HKEY_CURRENT_USER internetSettingsSubkey <;>
    cases hc2 : env.createOk RootKey.HKEY_LOCAL_MACHINE internetSettingsSubkey <;>
    cases hw2 : env.watchOk RootKey.HKEY_LOCAL_MACHINE internetSettingsSubkey <;>
    cases hc3 : env.createOk RootKey.HKEY_LOCAL_MACHINE policySubkey <;>
    cases hw3 : env.watchOk RootKey.HKEY_LOCAL_MACHINE policySubkey <;>
    simp [StartWatchingRegistryForChanges, AddKeyToWatchList, watchedLocations, h,
      hc1, hw1, hc2, hw2, hc3, hw3]

/-- Witness for C6 with an oracle under which exactly the second location
fails: the surviving watch set holds exactly the first and third locations. -/
theorem startWatching_three_locations_witness :
    (StartWatchingRegistryForChanges envSecondFails emptyState).keys_to_watch_ =
      (watchedLocations.filter
        (fun loc => envSecondFails.createOk loc.1 loc.2 &&
          envSecondFails.watchOk loc.1 loc.2)).map
        (fun loc => ⟨loc.1, loc.2, envSecondFails.handleOf loc.1 loc.2⟩) ∧
    (StartWatchingRegistryForChanges envSecondFails emptyState).keys_to_watch_.length = 2 :=
  ⟨startWatching_three_locations envSecondFails emptyState rfl, by decide⟩

/-- C7: the service is constructed with the fixed poll interval
`TimeDelta::FromSeconds(kPollIntervalSec)` of exactly 10 seconds — a closed
constant independent of any watch activity — and with `GetCurrentProxyConfig`
as the fetch function. -/
theorem ctor_poll_interval_ten_seconds :
    mkProxyConfigServiceWin.poll_interval = TimeDelta.FromSeconds kPollIntervalSec ∧
    mkProxyConfigServiceWin.poll_interval.seconds = 10 ∧
    mkProxyConfigServiceWin.get_config_func = GetCurrentProxyConfig :=
  ⟨rfl, rfl, rfl⟩

/-- C2: whenever the platform call `WinHttpGetIEProxyConfigForCurrentUser`
reports failure, `GetCurrentProxyConfig` sets the output configuration to the
no-proxy default `ProxyConfig::CreateDirect()` and propagates no error; in
every case it produces a configuration value (on success, the one obtained by
layering the IE config onto the passed-in configuration). -/
theorem getCurrentProxyConfig_failure_direct (winHttpResult : Option IEProxyConfig)
    (config : ProxyConfig) :
    (winHttpResult = none →
       GetCurrentProxyConfig winHttpResult config = ProxyConfig.CreateDirect) ∧
    ∀ ie_config, winHttpResult = some ie_config →
       GetCurrentProxyConfig winHttpResult config = SetFromIEConfig config ie_config := by
  constructor
  · rintro rfl
    rfl
  · rintro ie_config rfl
    rfl

/-- Witness for C2 at a failing platform call over a non-direct prior
configuration. -/
theorem getCurrentProxyConfig_failure_direct_witness :
    GetCurrentProxyConfig none config0 = ProxyConfig.CreateDirect :=
  (getCurrentProxyConfig_failure_direct none config0).1 rfl

/-- C9: `SetFromIEConfig` only ever adds to the output configuration — the
auto-detect flag of the result is the disjunction of the input flag with
`fAutoDetect` (so a false `fAutoDetect` never clears it), and a NULL
`lpszProxy`, `lpszProxyBypass` or `lpszAutoConfigUrl` leaves respectively the
proxy rules, the bypass rules and the PAC URL of the passed-in configuration
unchanged. -/
theorem setFromIEConfig_additive (config : ProxyConfig) (ie_config : IEProxyConfig) :
    (SetFromIEConfig config ie_config).auto_detect =
      (config.auto_detect || ie_config.fAutoDetect) ∧
    (ie_config.lpszProxy = none →
       (SetFromIEConfig config ie_config).proxy_rules = config.proxy_rules) ∧
    (ie_config.lpszProxyBypass = none →
       (SetFromIEConfig config ie_config).bypass_rules = config.bypass_rules) ∧
    (ie_config.lpszAutoConfigUrl = none →
       (SetFromIEConfig config ie_config).pac_url = config.pac_url) := by
  obtain ⟨ad, acu, p, pb⟩ := ie_config
  cases ad <;> cases acu <;> cases p <;> cases pb <;>
    simp [SetFromIEConfig]

/-- Witness for C9 at an all-absent IE config over a fully populated
configuration: nothing is cleared. -/
theorem setFromIEConfig_additive_witness :
    (SetFromIEConfig config0 ieEmpty).auto_detect =
      (config0.auto_detect || ieEmpty.fAutoDetect) ∧
    (SetFromIEConfig config0 ieEmpty).proxy_rules = config0.proxy_rules ∧
    (SetFromIEConfig config0 ieEmpty).bypass_rules = config0.bypass_rules ∧
    (SetFromIEConfig config0 ieEmpty).pac_url = config0.pac_url :=
  ⟨(setFromIEConfig_additive config0 ieEmpty).1,
   (setFromIEConfig_additive config0 ieEmpty).2.1 rfl,
   (setFromIEConfig_additive config0 ieEmpty).2.2.1 rfl,
   (setFromIEConfig_additive config0 ieEmpty).2.2.2 rfl⟩

/-- C1: when the signaled handle is found in `keys_to_watch_` (the scan
returns position `i` with entry `e`), `OnObjectSignaled` re-arms `e`
immediately; if the re-arm succeeds the watch set is unchanged, if it fails
entry `e` is removed from the set (erased at its position); and in both cases
`CheckForChangesNow()` is invoked exactly once for the fire. -/
theorem onObjectSignaled_rearm_erase_check_once (rearmOk : KeyEntry → Bool)
    (st : ServiceState) (object : Nat) (i : Nat) (e : KeyEntry)
    (h : FindSignaledEntry st.keys_to_watch_ object = some (i, e)) :
    ∃ st', OnObjectSignaled rearmOk st object = some (st', 1) ∧
      st'.observers = st.observers ∧
      (rearmOk e = true → st'.keys_to_watch_ = st.keys_to_watch_) ∧
      (rearmOk e = false →
        st'.keys_to_watch_ = st.keys_to_watch_.eraseIdx i) := by
  have hmain : OnObjectSignaled rearmOk st object =
      some ({ st with keys_to_watch_ :=
        if (rearmOk e) then st.keys_to_watch_
        else st.keys_to_watch_.eraseIdx i }, 1) := by
    unfold OnObjectSignaled
    rw [h]
  refine ⟨_, hmain, rfl, fun hr => by simp [hr], fun hr => by simp [hr]⟩

/-- Witness for C1: a fire on the single-entry state whose re-arm fails —
the entry is erased and the check count is 1. -/
theorem onObjectSignaled_rearm_erase_check_once_witness :
    ∃ st', OnObjectSignaled (fun _ => false) oneKeyState 5 = some (st', 1) ∧
      st'.observers = oneKeyState.observers ∧
      ((fun (_ : KeyEntry) => false)
          (⟨RootKey.HKEY_CURRENT_USER, internetSettingsSubkey, 5⟩ : KeyEntry) = true →
        st'.keys_to_watch_ = oneKeyState.keys_to_watch_) ∧
      ((fun (_ : KeyEntry) => false)
          (⟨RootKey.HKEY_CURRENT_USER, internetSettingsSubkey, 5⟩ : KeyEntry) = false →
        st'.keys_to_watch_ = oneKeyState.keys_to_watch_.eraseIdx 0) :=
  onObjectSignaled_rearm_erase_check_once (fun _ => false) oneKeyState 5 0
    ⟨RootKey.HKEY_CURRENT_USER, internetSettingsSubkey, 5⟩ (by decide)

theorem findSignaledEntry_some_spec (keys : List KeyEntry) (object : Nat)
    (i : Nat) (e : KeyEntry)
    (h : FindSignaledEntry keys object = some (i, e)) :
    keys.get? i = some e ∧ e.watch_event = object := by
  induction keys generalizing i with
  | nil => simp [FindSignaledEntry] at h
  | cons a rest ih =>
    by_cases ha : (a.watch_event == object) = true
    · rw [FindSignaledEntry, if_pos ha] at h
      obtain ⟨hi, he⟩ : 0 = i ∧ a = e := by simpa using h
      subst hi
      subst he
      exact ⟨rfl, by simpa using ha⟩
    · rw [FindSignaledEntry, if_neg ha] at h
      cases hf : FindSignaledEntry rest object with
      | none =>
        rw [hf] at h
        simp at h
      | some p =>
        obtain ⟨j, f⟩ := p
        rw [hf] at h
        obtain ⟨hi, he⟩ : j + 1 = i ∧ f = e := by simpa using h
        subst hi
        subst he
        exact ⟨by simpa using (ih j hf).1, (ih j hf).2⟩

theorem findSignaledEntry_isSome_of_mem (keys : List KeyEntry) (object : Nat)
    (e : KeyEntry) (he : e ∈ keys) (hw : e.watch_event = object) :
    ∃ p, FindSignaledEntry keys object = some p := by
  induction keys with
  | nil => cases he
  | cons a rest ih =>
    by_cases ha : (a.watch_event == object) = true
    · exact ⟨(0, a), by rw [FindSignaledEntry, if_pos ha]⟩
    · have hmem : e ∈ rest := by
        rcases List.mem_cons.mp he with hea | hmem
        · subst hea
          exact absurd (by simpa using hw) ha
        · exact hmem
      obtain ⟨p, hp⟩ := ih hmem
      exact ⟨(p.1 + 1, p.2), by rw [FindSignaledEntry, if_neg ha, hp]; rfl⟩

/-- C10: `OnObjectSignaled`'s linear scan carries the unchecked precondition
that the signaled handle belongs to some entry of `keys_to_watch_` (the C++
guards the scan result only with a `DCHECK`): under that precondition the
scan finds a position whose dereference is always valid — `get?` yields the
found entry, whose watch event equals the handle — and the call proceeds;
when no entry matches, the model flags the end-iterator dereference by
returning `none`. -/
theorem onObjectSignaled_handle_precondition (rearmOk : KeyEntry → Bool)
    (st : ServiceState) (object : Nat) :
    ((∃ e, e ∈ st.keys_to_watch_ ∧ e.watch_event = object) →
      ∃ i e, FindSignaledEntry st.keys_to_watch_ object = some (i, e) ∧
        st.keys_to_watch_.get? i = some e ∧ e.watch_event = object ∧
        (OnObjectSignaled rearmOk st object).isSome = true) ∧
    ((¬ ∃ e, e ∈ st.keys_to_watch_ ∧ e.watch_event = object) →
      OnObjectSignaled rearmOk st object = none) := by
  constructor
  · rintro ⟨e, he, hw⟩
    obtain ⟨⟨i, f⟩, hp⟩ := findSignaledEntry_isSome_of_mem _ object e he hw
    obtain ⟨hg, hwf⟩ := findSignaledEntry_some_spec _ object i f hp
    refine ⟨i, f, hp, hg, hwf, ?_⟩
    unfold OnObjectSignaled
    rw [hp]
    rfl
  · intro hno
    cases hp : FindSignaledEntry st.keys_to_watch_ object with
    | none =>
      unfold OnObjectSignaled
      rw [hp]
    | some p =>
      obtain ⟨i, f⟩ := p
      obtain ⟨hg, hwf⟩ := findSignaledEntry_some_spec _ object i f hp
      exact absurd ⟨f, List.get?_mem hg, hwf⟩ hno

/-- Witness for C10 on the single-entry state: the handle 5 is present, the
scan returns position 0, and its dereference is valid. -/
theorem onObjectSignaled_handle_precondition_witness :
    ∃ i e, FindSignaledEntry oneKeyState.keys_to_watch_ 5 = some (i, e) ∧
      oneKeyState.keys_to_watch_.get? i = some e ∧ e.watch_event = 5 ∧
      (OnObjectSignaled (fun _ => true) oneKeyState 5).isSome = true :=
  (onObjectSignaled_handle_precondition (fun _ => true) oneKeyState 5).1
    ⟨⟨RootKey.HKEY_CURRENT_USER, internetSettingsSubkey, 5⟩, by decide, rfl⟩

theorem stepOp_keys_sublist_or_empty (op : ServiceOp) (st : ServiceState) :
    ((stepOp op st).keys_to_watch_).Sublist st.keys_to_watch_ ∨
      st.keys_to_watch_ = [] := by
  cases op with
  | addObserver env observer =>
    by_cases h : st.keys_to_watch_ = []
    · exact Or.inr h
    · left
      have hno : StartWatchingRegistryForChanges env st = st :=
        startWatching_noop env st h
      simp [stepOp, AddObserver, hno]
  | objectSignaled rearmOk object =>
    left
    cases hf : FindSignaledEntry st.keys_to_watch_ object with
    | none => simp [stepOp, OnObjectSignaled, hf]
    | some p =>
      obtain ⟨i, e⟩ := p
      by_cases hr : (rearmOk e) = true
      · simp [stepOp, OnObjectSignaled, hf, hr]
      · have hr' : rearmOk e = false := by simpa using hr
        simp only [stepOp, OnObjectSignaled, hf, hr', if_false, Bool.false_eq_true]
        exact List.eraseIdx_sublist st.keys_to_watch_ i

/-- C3 (amended): over any run of operations, the watch set never grows while
it is non-empty — the final `keys_to_watch_` is a sublist of the initial one
unless the set drained to empty at some intermediate point, after which a
subsequent `AddObserver` re-runs the lazy initialization and may re-add
entries. -/
theorem runOps_keys_sublist_or_drained (ops : List ServiceOp) (st : ServiceState) :
    ((runOps ops st).keys_to_watch_).Sublist st.keys_to_watch_ ∨
      ∃ n, (runOps (ops.take n) st).keys_to_watch_ = [] := by
  induction ops generalizing st with
  | nil => exact Or.inl (List.Sublist.refl _)
  | cons op rest ih =>
    have hrun : runOps (op :: rest) st = runOps rest (stepOp op st) := rfl
    cases stepOp_keys_sublist_or_empty op st with
    | inr hempty => exact Or.inr ⟨0, by simpa [runOps] using hempty⟩
    | inl hsub =>
      cases ih (stepOp op st) with
      | inl hsub2 => exact Or.inl (by rw [hrun]; exact hsub2.trans hsub)
      | inr hdrain =>
        obtain ⟨n, hn⟩ := hdrain
        refine Or.inr ⟨n + 1, ?_⟩
        simpa [runOps] using hn

/-- Counterexample to C3 as stated: from a fresh state, a first `AddObserver`
lazily initializes the watch set to three entries; three fires whose re-arms
fail drain it to empty; a later `AddObserver` then re-runs the initialization
and re-adds three entries mid-run — so after lazy initialization the set is
not monotonically non-growing over every sequence of operations. -/
theorem keys_to_watch_regrow_after_init :
    (stepOp (ServiceOp.addObserver envAllOk 1) emptyState).keys_to_watch_.length = 3 ∧
    (runOps drainFires
      (stepOp (ServiceOp.addObserver envAllOk 1) emptyState)).keys_to_watch_.length = 0 ∧
    (stepOp (ServiceOp.addObserver envAllOk 2)
      (runOps drainFires
        (stepOp (ServiceOp.addObserver envAllOk 1) emptyState))).keys_to_watch_.length = 3 := by
  decide

theorem checkForChangesNow_fix (s : PollCore) (hf : s.fetchInFlight = true)
    (hr : s.recheckRequested = true) : checkForChangesNow s = s := by
  cases s
  simp_all [checkForChangesNow]

theorem triggerN_fix (n : Nat) (s : PollCore) (hf : s.fetchInFlight = true)
    (hr : s.recheckRequested = true) : triggerN n s = s := by
  induction n with
  | zero => rfl
  | succ k ihk =>
    have hc := checkForChangesNow_fix s hf hr
    rw [triggerN, hc, ihk]

theorem triggerN_inflight (n : Nat) (s : PollCore) (hf : s.fetchInFlight = true) :
    triggerN (n + 1) s = { s with recheckRequested := true } := by
  have h1 : checkForChangesNow s = { s with recheckRequested := true } := by
    simp [checkForChangesNow, hf]
  rw [triggerN, h1]
  exact triggerN_fix n _ (by simpa using hf) rfl

/-- C4: at most one fetch-and-compare cycle is in flight at a time (the state
carries a single `fetchInFlight` flag), and for every N ≥ 1, N trigger events
delivered to `checkForChangesNow` while a cycle is in flight start exactly one
additional cycle once the in-flight one completes — and completing that
follow-up cycle starts no further one. -/
theorem checkForChangesNow_coalesces (s : PollCore) (n : Nat)
    (hf : s.fetchInFlight = true) (_hr : s.recheckRequested = false)
    (hn : 1 ≤ n) :
    (completeFetch (triggerN n s)).cyclesStarted = s.cyclesStarted + 1 ∧
    (completeFetch (triggerN n s)).fetchInFlight = true ∧
    (completeFetch (triggerN n s)).recheckRequested = false ∧
    (completeFetch (completeFetch (triggerN n s))).cyclesStarted =
      s.cyclesStarted + 1 ∧
    (completeFetch (completeFetch (triggerN n s))).fetchInFlight = false := by
  obtain ⟨m, rfl⟩ : ∃ m, n = m + 1 := ⟨n - 1, by omega⟩
  rw [triggerN_inflight m s hf]
  simp [completeFetch]

/-- Witness for C4: three triggers arriving during a busy cycle yield exactly
one follow-up cycle. -/
theorem checkForChangesNow_coalesces_witness :
    (completeFetch (triggerN 3 pollBusy)).cyclesStarted =
      pollBusy.cyclesStarted + 1 ∧
    (completeFetch (triggerN 3 pollBusy)).fetchInFlight = true ∧
    (completeFetch (triggerN 3 pollBusy)).recheckRequested = false ∧
    (completeFetch (completeFetch (triggerN 3 pollBusy))).cyclesStarted =
      pollBusy.cyclesStarted + 1 ∧
    (completeFetch (completeFetch (triggerN 3 pollBusy))).fetchInFlight = false :=
  checkForChangesNow_coalesces pollBusy 3 rfl rfl (by decide)

end ProxyWin
